import Mathlib

/-!
# AnySerial: the serial-port dispatch wrapper of teensy-dsc

A shallow embedding of `src/AnySerial/AnySerial.cpp`.

The translation unit is embedded as it is compiled when both `AltSoftSerial_h`
and `SoftwareSerial_h` are defined, so that all three constructors and all three
`case` arms of every `switch` are present.

The three backend classes (`HardwareSerial`, `SoftwareSerial`, `AltSoftSerial`)
are external libraries.  Their member functions are parameters of the embedding:
a record of transition functions on an arbitrary backend state type.  Backend
objects live in typed heaps indexed by address, the adapter holds an address, and
every member-function call the adapter makes is appended to a call log.
-/

namespace AnySerial

/-! ## Data model -/

/-- An address of a backend object (the value of a `HardwareSerial *`,
`SoftwareSerial *` or `AltSoftSerial *`). -/
abbrev Ptr := Nat

/-- Modelled from the spec: the enumeration behind `port_type`, declared in
the header `AnySerial.h`, which is not at hand.  Its three enumerators are the labels of the
`case` arms in `AnySerial.cpp`. -/
inductive PortType where
  | anyserial_hardware
  | anyserial_altsoft
  | anyserial_soft
  deriving DecidableEq, Repr

end AnySerial

/-- Modelled from the spec: the data members of class `AnySerial`, declared in
the header `AnySerial.h`, which is not at hand, and assigned by the constructors of
`AnySerial.cpp`: the union `serialport` of three backend pointers, which share
their storage and so are one address, and the tag `port_type`. -/
structure AnySerial where
  serialport : AnySerial.Ptr
  port_type : AnySerial.PortType
  deriving DecidableEq, Repr

namespace AnySerial

/-- Modelled from the spec: the member functions of the hardware UART class that
`AnySerial.cpp` calls (the class is an external library).  Each is a transition
on the state `σ` of one backend object; value-returning members also give their
result.  `write` is `write(const char *)`, whose argument is the memory the
pointer addresses; `write_buf` is `write(const uint8_t *, size_t)`. -/
structure HardwareSerial (σ : Type) where
  begin : Nat → σ → σ
  «end» : σ → σ
  peek : σ → Int × σ
  read : σ → Int × σ
  available : σ → Int × σ
  write : List Nat → σ → Nat × σ
  write_buf : List Nat → Nat → σ → Nat × σ

/-- Modelled from the spec: the member functions of the bit-banged software UART
class that `AnySerial.cpp` calls: those of the hardware class and six more. -/
structure SoftwareSerial (σ : Type) extends HardwareSerial σ where
  flushInput : σ → σ
  flushOutput : σ → σ
  listen : σ → Bool × σ
  isListening : σ → Bool × σ
  overflow : σ → Bool × σ
  library_version : σ → Int × σ

/-- Modelled from the spec: the member functions of the timer-driven software
UART class that `AnySerial.cpp` calls: those of the hardware class and six
more. -/
structure AltSoftSerial (σ : Type) extends HardwareSerial σ where
  flushInput : σ → σ
  flushOutput : σ → σ
  listen : σ → Bool × σ
  isListening : σ → Bool × σ
  overflow : σ → Bool × σ
  library_version : σ → Int × σ

/-- The behaviour of the three backend classes. -/
structure Backends (H S A : Type) where
  hardware : HardwareSerial H
  soft : SoftwareSerial S
  altsoft : AltSoftSerial A

/-- A member function of a backend class together with its arguments, as the
call log records it. -/
inductive Method where
  | begin (baud : Nat)
  | «end»
  | peek
  | read
  | available
  | flushInput
  | flushOutput
  | listen
  | isListening
  | overflow
  | library_version
  | write (str : List Nat)
  | write_buf (buff : List Nat) (len : Nat)
  deriving DecidableEq, Repr

/-- What code holding a backend pointer can do to the object behind it: call a
member function, or destroy the object. -/
inductive Event where
  | call (kind : PortType) (obj : Ptr) (m : Method)
  | delete (kind : PortType) (obj : Ptr)
  deriving DecidableEq, Repr

/-- The backend objects, by class and address, and the log of what has been done
to them. -/
structure World (H S A : Type) where
  hardware : Ptr → H
  soft : Ptr → S
  altsoft : Ptr → A
  log : List Event

/-- An adapter object and the backend objects around it. -/
structure State (H S A : Type) where
  self : AnySerial
  world : World H S A

variable {H S A : Type}

/-! ## Calls through a backend pointer -/

/-- Evaluate `port->m(...)` for a `HardwareSerial *port` where `m` returns a
value. -/
def World.hardwareCall {α : Type} (w : World H S A) (port : Ptr) (m : Method)
    (f : H → α × H) : α × World H S A :=
  ((f (w.hardware port)).1,
    { w with
      hardware := Function.update w.hardware port (f (w.hardware port)).2
      log := w.log ++ [Event.call PortType.anyserial_hardware port m] })

/-- Evaluate `port->m(...)` for a `SoftwareSerial *port` where `m` returns a
value. -/
def World.softCall {α : Type} (w : World H S A) (port : Ptr) (m : Method)
    (f : S → α × S) : α × World H S A :=
  ((f (w.soft port)).1,
    { w with
      soft := Function.update w.soft port (f (w.soft port)).2
      log := w.log ++ [Event.call PortType.anyserial_soft port m] })

/-- Evaluate `port->m(...)` for an `AltSoftSerial *port` where `m` returns a
value. -/
def World.altsoftCall {α : Type} (w : World H S A) (port : Ptr) (m : Method)
    (f : A → α × A) : α × World H S A :=
  ((f (w.altsoft port)).1,
    { w with
      altsoft := Function.update w.altsoft port (f (w.altsoft port)).2
      log := w.log ++ [Event.call PortType.anyserial_altsoft port m] })

/-- Execute `port->m(...)` for a `HardwareSerial *port` where `m` is `void`. -/
def World.hardwareDo (w : World H S A) (port : Ptr) (m : Method) (f : H → H) :
    World H S A :=
  (w.hardwareCall port m (fun x => ((), f x))).2

/-- Execute `port->m(...)` for a `SoftwareSerial *port` where `m` is `void`. -/
def World.softDo (w : World H S A) (port : Ptr) (m : Method) (f : S → S) :
    World H S A :=
  (w.softCall port m (fun x => ((), f x))).2

/-- Execute `port->m(...)` for an `AltSoftSerial *port` where `m` is `void`. -/
def World.altsoftDo (w : World H S A) (port : Ptr) (m : Method) (f : A → A) :
    World H S A :=
  (w.altsoftCall port m (fun x => ((), f x))).2

/-! ## Constructors (AnySerial.cpp lines 44-61) -/

/-- Constructor `AnySerial::AnySerial(HardwareSerial *port)`. -/
def ofHardwareSerial (port : Ptr) : AnySerial :=
  { serialport := port, port_type := PortType.anyserial_hardware }

/-- Constructor `AnySerial::AnySerial(AltSoftSerial *port)`. -/
def ofAltSoftSerial (port : Ptr) : AnySerial :=
  { serialport := port, port_type := PortType.anyserial_altsoft }

/-- Constructor `AnySerial::AnySerial(SoftwareSerial *port)`. -/
def ofSoftwareSerial (port : Ptr) : AnySerial :=
  { serialport := port, port_type := PortType.anyserial_soft }

/-- The constructor that `kind` selects, applied to `port`. -/
def construct (kind : PortType) (port : Ptr) : AnySerial :=
  match kind with
  | PortType.anyserial_hardware => ofHardwareSerial port
  | PortType.anyserial_altsoft => ofAltSoftSerial port
  | PortType.anyserial_soft => ofSoftwareSerial port

/-! ## Member functions (AnySerial.cpp lines 63-360) -/

/-- Member function `void AnySerial::begin(uint32_t baud)`. -/
def begin (B : Backends H S A) (baud : Nat) (s : State H S A) : State H S A :=
  match s.self.port_type with
  | PortType.anyserial_altsoft =>
    { s with world := s.world.altsoftDo s.self.serialport (Method.begin baud) (B.altsoft.begin baud) }
  | PortType.anyserial_soft =>
    { s with world := s.world.softDo s.self.serialport (Method.begin baud) (B.soft.begin baud) }
  | PortType.anyserial_hardware =>
    { s with world := s.world.hardwareDo s.self.serialport (Method.begin baud) (B.hardware.begin baud) }

/-- Member function `void AnySerial::end()`. -/
def «end» (B : Backends H S A) (s : State H S A) : State H S A :=
  match s.self.port_type with
  | PortType.anyserial_altsoft =>
    { s with world := s.world.altsoftDo s.self.serialport Method.end B.altsoft.end }
  | PortType.anyserial_soft =>
    { s with world := s.world.softDo s.self.serialport Method.end B.soft.end }
  | PortType.anyserial_hardware =>
    { s with world := s.world.hardwareDo s.self.serialport Method.end B.hardware.end }

/-- Member function `int AnySerial::peek()`: `ret` starts at `-1` and every arm assigns it. -/
def peek (B : Backends H S A) (s : State H S A) : Int × State H S A :=
  match s.self.port_type with
  | PortType.anyserial_altsoft =>
    let r := s.world.altsoftCall s.self.serialport Method.peek B.altsoft.peek
    (r.1, { s with world := r.2 })
  | PortType.anyserial_soft =>
    let r := s.world.softCall s.self.serialport Method.peek B.soft.peek
    (r.1, { s with world := r.2 })
  | PortType.anyserial_hardware =>
    let r := s.world.hardwareCall s.self.serialport Method.peek B.hardware.peek
    (r.1, { s with world := r.2 })

/-- Member function `int AnySerial::read()`: `ret` starts at `-1` and every arm assigns it. -/
def read (B : Backends H S A) (s : State H S A) : Int × State H S A :=
  match s.self.port_type with
  | PortType.anyserial_altsoft =>
    let r := s.world.altsoftCall s.self.serialport Method.read B.altsoft.read
    (r.1, { s with world := r.2 })
  | PortType.anyserial_soft =>
    let r := s.world.softCall s.self.serialport Method.read B.soft.read
    (r.1, { s with world := r.2 })
  | PortType.anyserial_hardware =>
    let r := s.world.hardwareCall s.self.serialport Method.read B.hardware.read
    (r.1, { s with world := r.2 })

/-- Member function `int AnySerial::available()`: `ret` starts at `0` and every arm assigns
it. -/
def available (B : Backends H S A) (s : State H S A) : Int × State H S A :=
  match s.self.port_type with
  | PortType.anyserial_altsoft =>
    let r := s.world.altsoftCall s.self.serialport Method.available B.altsoft.available
    (r.1, { s with world := r.2 })
  | PortType.anyserial_soft =>
    let r := s.world.softCall s.self.serialport Method.available B.soft.available
    (r.1, { s with world := r.2 })
  | PortType.anyserial_hardware =>
    let r := s.world.hardwareCall s.self.serialport Method.available B.hardware.available
    (r.1, { s with world := r.2 })

/-- Member function `void AnySerial::flushInput()`: the hardware arm is an empty `break`. -/
def flushInput (B : Backends H S A) (s : State H S A) : State H S A :=
  match s.self.port_type with
  | PortType.anyserial_altsoft =>
    { s with world := s.world.altsoftDo s.self.serialport Method.flushInput B.altsoft.flushInput }
  | PortType.anyserial_soft =>
    { s with world := s.world.softDo s.self.serialport Method.flushInput B.soft.flushInput }
  | PortType.anyserial_hardware => s

/-- Member function `void AnySerial::flushOutput()`: the hardware arm is an empty `break`. -/
def flushOutput (B : Backends H S A) (s : State H S A) : State H S A :=
  match s.self.port_type with
  | PortType.anyserial_altsoft =>
    { s with world := s.world.altsoftDo s.self.serialport Method.flushOutput B.altsoft.flushOutput }
  | PortType.anyserial_soft =>
    { s with world := s.world.softDo s.self.serialport Method.flushOutput B.soft.flushOutput }
  | PortType.anyserial_hardware => s

/-- Member function `bool AnySerial::listen()`: `ret` starts at `true`; the hardware arm is an
empty `break` and leaves it. -/
def listen (B : Backends H S A) (s : State H S A) : Bool × State H S A :=
  let ret : Bool := true
  match s.self.port_type with
  | PortType.anyserial_altsoft =>
    let r := s.world.altsoftCall s.self.serialport Method.listen B.altsoft.listen
    (r.1, { s with world := r.2 })
  | PortType.anyserial_soft =>
    let r := s.world.softCall s.self.serialport Method.listen B.soft.listen
    (r.1, { s with world := r.2 })
  | PortType.anyserial_hardware => (ret, s)

/-- Member function `bool AnySerial::isListening()`: `ret` starts at `false`; the hardware arm
is an empty `break` and leaves it. -/
def isListening (B : Backends H S A) (s : State H S A) : Bool × State H S A :=
  let ret : Bool := false
  match s.self.port_type with
  | PortType.anyserial_altsoft =>
    let r := s.world.altsoftCall s.self.serialport Method.isListening B.altsoft.isListening
    (r.1, { s with world := r.2 })
  | PortType.anyserial_soft =>
    let r := s.world.softCall s.self.serialport Method.isListening B.soft.isListening
    (r.1, { s with world := r.2 })
  | PortType.anyserial_hardware => (ret, s)

/-- Member function `bool AnySerial::overflow()`: `ret` starts at `false`; the hardware arm is
an empty `break` and leaves it. -/
def overflow (B : Backends H S A) (s : State H S A) : Bool × State H S A :=
  let ret : Bool := false
  match s.self.port_type with
  | PortType.anyserial_altsoft =>
    let r := s.world.altsoftCall s.self.serialport Method.overflow B.altsoft.overflow
    (r.1, { s with world := r.2 })
  | PortType.anyserial_soft =>
    let r := s.world.softCall s.self.serialport Method.overflow B.soft.overflow
    (r.1, { s with world := r.2 })
  | PortType.anyserial_hardware => (ret, s)

/-- Member function `int AnySerial::library_version()`: `ret` starts at `0`; the hardware arm
is an empty `break` and leaves it. -/
def library_version (B : Backends H S A) (s : State H S A) : Int × State H S A :=
  let ret : Int := 0
  match s.self.port_type with
  | PortType.anyserial_altsoft =>
    let r := s.world.altsoftCall s.self.serialport Method.library_version B.altsoft.library_version
    (r.1, { s with world := r.2 })
  | PortType.anyserial_soft =>
    let r := s.world.softCall s.self.serialport Method.library_version B.soft.library_version
    (r.1, { s with world := r.2 })
  | PortType.anyserial_hardware => (ret, s)

/-- Member function `size_t AnySerial::write(char *str)`: `ret` starts at `0` and every arm
assigns it.  `str` is the memory the pointer addresses. -/
def write (B : Backends H S A) (str : List Nat) (s : State H S A) : Nat × State H S A :=
  match s.self.port_type with
  | PortType.anyserial_altsoft =>
    let r := s.world.altsoftCall s.self.serialport (Method.write str) (B.altsoft.write str)
    (r.1, { s with world := r.2 })
  | PortType.anyserial_soft =>
    let r := s.world.softCall s.self.serialport (Method.write str) (B.soft.write str)
    (r.1, { s with world := r.2 })
  | PortType.anyserial_hardware =>
    let r := s.world.hardwareCall s.self.serialport (Method.write str) (B.hardware.write str)
    (r.1, { s with world := r.2 })

/-- Member function `size_t AnySerial::write(const uint8_t *buff, size_t len)`: `ret` starts at
`0` and every arm assigns it.  `buff` is the memory the pointer addresses. -/
def write_buf (B : Backends H S A) (buff : List Nat) (len : Nat) (s : State H S A) :
    Nat × State H S A :=
  match s.self.port_type with
  | PortType.anyserial_altsoft =>
    let r := s.world.altsoftCall s.self.serialport (Method.write_buf buff len)
      (B.altsoft.write_buf buff len)
    (r.1, { s with world := r.2 })
  | PortType.anyserial_soft =>
    let r := s.world.softCall s.self.serialport (Method.write_buf buff len)
      (B.soft.write_buf buff len)
    (r.1, { s with world := r.2 })
  | PortType.anyserial_hardware =>
    let r := s.world.hardwareCall s.self.serialport (Method.write_buf buff len)
      (B.hardware.write_buf buff len)
    (r.1, { s with world := r.2 })

/-- Destructor `AnySerial::~AnySerial()`: the body is `end();`.  The data members are an
enumeration and a union of raw pointers, whose destruction does nothing. -/
def destroy (B : Backends H S A) (s : State H S A) : State H S A :=
  «end» B s

/-- Member function `void AnySerial::writeByte(uint8_t byte)`: every arm calls
`write(&byte, 1)` on the backend and drops the count it returns. -/
def writeByte (B : Backends H S A) (byte : Nat) (s : State H S A) : State H S A :=
  match s.self.port_type with
  | PortType.anyserial_altsoft =>
    let r := s.world.altsoftCall s.self.serialport (Method.write_buf [byte] 1)
      (B.altsoft.write_buf [byte] 1)
    { s with world := r.2 }
  | PortType.anyserial_soft =>
    let r := s.world.softCall s.self.serialport (Method.write_buf [byte] 1)
      (B.soft.write_buf [byte] 1)
    { s with world := r.2 }
  | PortType.anyserial_hardware =>
    let r := s.world.hardwareCall s.self.serialport (Method.write_buf [byte] 1)
      (B.hardware.write_buf [byte] 1)
    { s with world := r.2 }

/-! ## The public operations as one family -/

/-- What a call of a public member function hands back to its caller. -/
inductive Value where
  | void
  | int (i : Int)
  | bool (b : Bool)
  | size (n : Nat)
  deriving DecidableEq, Repr

/-- A call of a public member function of `AnySerial`, with its arguments. -/
inductive Op where
  | begin (baud : Nat)
  | «end»
  | peek
  | read
  | available
  | flushInput
  | flushOutput
  | listen
  | isListening
  | overflow
  | library_version
  | write (str : List Nat)
  | write_buf (buff : List Nat) (len : Nat)
  | writeByte (byte : Nat)
  deriving DecidableEq, Repr

/-- Run one call: the value the caller observes and the state afterwards. -/
def Op.run (B : Backends H S A) (op : Op) (s : State H S A) : Value × State H S A :=
  match op with
  | Op.begin baud => (Value.void, AnySerial.begin B baud s)
  | Op.end => (Value.void, AnySerial.«end» B s)
  | Op.peek => (Value.int (AnySerial.peek B s).1, (AnySerial.peek B s).2)
  | Op.read => (Value.int (AnySerial.read B s).1, (AnySerial.read B s).2)
  | Op.available => (Value.int (AnySerial.available B s).1, (AnySerial.available B s).2)
  | Op.flushInput => (Value.void, AnySerial.flushInput B s)
  | Op.flushOutput => (Value.void, AnySerial.flushOutput B s)
  | Op.listen => (Value.bool (AnySerial.listen B s).1, (AnySerial.listen B s).2)
  | Op.isListening => (Value.bool (AnySerial.isListening B s).1, (AnySerial.isListening B s).2)
  | Op.overflow => (Value.bool (AnySerial.overflow B s).1, (AnySerial.overflow B s).2)
  | Op.library_version => (Value.int (AnySerial.library_version B s).1, (AnySerial.library_version B s).2)
  | Op.write str => (Value.size (AnySerial.write B str s).1, (AnySerial.write B str s).2)
  | Op.write_buf buff len => (Value.size (AnySerial.write_buf B buff len s).1, (AnySerial.write_buf B buff len s).2)
  | Op.writeByte byte => (Value.void, AnySerial.writeByte B byte s)

/-- Run a sequence of calls one after the other; the state after the last. -/
def runAll (B : Backends H S A) (ops : List Op) (s : State H S A) : State H S A :=
  ops.foldl (fun t op => (op.run B t).2) s

/-! ## A recording fake backend -/

/-- Modelled from the spec: the fake backend of the test scenarios, a test
double that stands in for an external backend class.  It records the baud rate
it was opened with and the bytes written to it, and serves reads from a queue
of received bytes: `peek` gives the next byte without consuming it or `-1` if
there is none, `read` gives the next byte and consumes it or `-1` if there is
none, `available` gives the count of bytes ready to read. -/
structure Fake where
  opened : Bool
  baud : Nat
  written : List Nat
  received : List Nat
  listening : Bool
  overflowed : Bool
  deriving DecidableEq, Repr

/-- A fake backend on which nothing has been called yet. -/
def Fake.fresh : Fake :=
  { opened := false, baud := 0, written := [], received := [],
    listening := false, overflowed := false }

/-- Modelled from the spec: the hardware-class members of the fake backend.
`write` takes the text up to its terminating zero byte, `write_buf` takes the
first `len` bytes; both append what they take to the record and return its
count. -/
def Fake.hardwareSerial : HardwareSerial Fake where
  begin := fun baud x => { x with opened := true, baud := baud }
  «end» := fun x => { x with opened := false }
  peek := fun x =>
    match x.received with
    | [] => (-1, x)
    | b :: _ => ((b : Int), x)
  read := fun x =>
    match x.received with
    | [] => (-1, x)
    | b :: rest => ((b : Int), { x with received := rest })
  available := fun x => ((x.received.length : Int), x)
  write := fun str x =>
    ((str.takeWhile (fun c => c != 0)).length,
      { x with written := x.written ++ str.takeWhile (fun c => c != 0) })
  write_buf := fun buff len x =>
    ((buff.take len).length, { x with written := x.written ++ buff.take len })

/-- Modelled from the spec: the fake backend as a bit-banged software UART. -/
def Fake.softwareSerial : SoftwareSerial Fake where
  toHardwareSerial := Fake.hardwareSerial
  flushInput := fun x => { x with received := [] }
  flushOutput := fun x => x
  listen := fun x => (!x.listening, { x with listening := true })
  isListening := fun x => (x.listening, x)
  overflow := fun x => (x.overflowed, { x with overflowed := false })
  library_version := fun x => (1, x)

/-- Modelled from the spec: the fake backend as a timer-driven software UART. -/
def Fake.altSoftSerial : AltSoftSerial Fake where
  toHardwareSerial := Fake.hardwareSerial
  flushInput := fun x => { x with received := [] }
  flushOutput := fun x => x
  listen := fun x => (!x.listening, { x with listening := true })
  isListening := fun x => (x.listening, x)
  overflow := fun x => (x.overflowed, { x with overflowed := false })
  library_version := fun x => (1, x)

/-- One fake backend class per kind. -/
def Fake.backends : Backends Fake Fake Fake :=
  { hardware := Fake.hardwareSerial, soft := Fake.softwareSerial,
    altsoft := Fake.altSoftSerial }

/-- A world in which every backend object is a fresh fake and nothing has been
logged. -/
def Fake.world : World Fake Fake Fake :=
  { hardware := fun _ => Fake.fresh, soft := fun _ => Fake.fresh,
    altsoft := fun _ => Fake.fresh, log := [] }

/-- Modelled from the spec: the receive-side contract the spec gives for the
`peek`, `read` and `available` members of a backend, stated through the queue
`pending` of bytes the backend object has received and not yet handed out:
`available` is the count of bytes ready to read, `peek` is the next byte
without consuming it or `-1` if none is available, `read` is the next byte or
`-1` if none is available. -/
structure Receives {σ : Type} (api : HardwareSerial σ) (pending : σ → List Nat) : Prop where
  available_count : ∀ x, (api.available x).1 = ((pending x).length : Int)
  peek_next : ∀ x, (api.peek x).1 = (match pending x with | [] => -1 | b :: _ => (b : Int))
  peek_keeps : ∀ x, pending (api.peek x).2 = pending x
  read_next : ∀ x, (api.read x).1 = (match pending x with | [] => -1 | b :: _ => (b : Int))

/-! ## Theorems -/

/-! ### Helper lemmas -/

/-- No call changes the adapter object. -/
theorem run_self (B : Backends H S A) (op : Op) (s : State H S A) :
    (op.run B s).2.self = s.self := by
  obtain ⟨⟨port, kind⟩, w⟩ := s
  cases kind <;> cases op <;> rfl

/-- No sequence of calls changes the adapter object. -/
theorem runAll_self (B : Backends H S A) (ops : List Op) (s : State H S A) :
    (runAll B ops s).self = s.self := by
  induction ops generalizing s with
  | nil => rfl
  | cons op rest ih =>
    show (runAll B rest (op.run B s).2).self = s.self
    rw [ih, run_self]

/-- On a hardware-bound adapter `listen` changes nothing. -/
theorem listen_hardware (B : Backends H S A) (port : Ptr) (w : World H S A) :
    listen B ⟨ofHardwareSerial port, w⟩ = (true, ⟨ofHardwareSerial port, w⟩) := rfl

/-- On a hardware-bound adapter any number of `listen` calls changes nothing. -/
theorem runAll_listen_hardware (B : Backends H S A) (port : Ptr) (w : World H S A) (n : Nat) :
    runAll B (List.replicate n Op.listen) ⟨ofHardwareSerial port, w⟩ =
      ⟨ofHardwareSerial port, w⟩ := by
  induction n with
  | zero => rfl
  | succ k ih =>
    show runAll B (List.replicate k Op.listen)
      (Op.listen.run B ⟨ofHardwareSerial port, w⟩).2 = _
    exact ih

/-! ### The claims -/

/-- C8: the tag `port_type` and the handle `serialport` are what the
constructor wrote, and they are the same after every public operation, after
the destructor body, and after every sequence of public operations. -/
theorem tag_and_handle_invariant (B : Backends H S A) (op : Op) (ops : List Op)
    (s : State H S A) (port : Ptr) :
    (ofHardwareSerial port = { serialport := port, port_type := PortType.anyserial_hardware } ∧
      ofAltSoftSerial port = { serialport := port, port_type := PortType.anyserial_altsoft } ∧
      ofSoftwareSerial port = { serialport := port, port_type := PortType.anyserial_soft }) ∧
    ((op.run B s).2.self.port_type = s.self.port_type ∧
      (op.run B s).2.self.serialport = s.self.serialport) ∧
    ((destroy B s).self.port_type = s.self.port_type ∧
      (destroy B s).self.serialport = s.self.serialport) ∧
    ((runAll B ops s).self.port_type = s.self.port_type ∧
      (runAll B ops s).self.serialport = s.self.serialport) := by
  refine ⟨⟨rfl, rfl, rfl⟩, ?_, ?_, ?_⟩
  · rw [run_self]; exact ⟨rfl, rfl⟩
  · have h := run_self B Op.end s
    have e : (Op.end.run B s).2 = destroy B s := rfl
    rw [e] at h
    rw [h]; exact ⟨rfl, rfl⟩
  · rw [runAll_self]; exact ⟨rfl, rfl⟩

/-- C2: on an adapter constructed over a hardware backend, in every state of the
world, `flushInput` and `flushOutput` return nothing, `listen` returns `true`,
`isListening` returns `false`, `overflow` returns `false` and `library_version`
returns `0`, and each of the six leaves the whole state as it was: no backend
object changes and the call log gets no entry. -/
theorem hardware_sentinels (B : Backends H S A) (port : Ptr) (w : World H S A) :
    Op.flushInput.run B ⟨ofHardwareSerial port, w⟩ = (Value.void, ⟨ofHardwareSerial port, w⟩) ∧
    Op.flushOutput.run B ⟨ofHardwareSerial port, w⟩ = (Value.void, ⟨ofHardwareSerial port, w⟩) ∧
    Op.listen.run B ⟨ofHardwareSerial port, w⟩ = (Value.bool true, ⟨ofHardwareSerial port, w⟩) ∧
    Op.isListening.run B ⟨ofHardwareSerial port, w⟩ =
      (Value.bool false, ⟨ofHardwareSerial port, w⟩) ∧
    Op.overflow.run B ⟨ofHardwareSerial port, w⟩ = (Value.bool false, ⟨ofHardwareSerial port, w⟩) ∧
    Op.library_version.run B ⟨ofHardwareSerial port, w⟩ =
      (Value.int 0, ⟨ofHardwareSerial port, w⟩) :=
  ⟨rfl, rfl, rfl, rfl, rfl, rfl⟩

/-- C10: on an adapter constructed over a hardware backend, in every state of
the world, `listen` returns `true`, an `isListening` issued right after it
returns `false`, and after any number of `listen` calls `isListening` still
returns `false`. -/
theorem hardware_listen_stateless (B : Backends H S A) (port : Ptr) (w : World H S A)
    (n : Nat) :
    (listen B ⟨ofHardwareSerial port, w⟩).1 = true ∧
    (isListening B (listen B ⟨ofHardwareSerial port, w⟩).2).1 = false ∧
    (isListening B (runAll B (List.replicate n Op.listen) ⟨ofHardwareSerial port, w⟩)).1 =
      false := by
  refine ⟨rfl, rfl, ?_⟩
  rw [runAll_listen_hardware]
  rfl


/-- C1: every public operation calls only the backend object bound at
construction: every entry it adds to the call log is a call on the bound object,
and every backend object other than the bound one, of any class and at any
address, has the state it had before; in particular the backends of the two
kinds that are not bound are unchanged. -/
theorem calls_only_bound_backend (B : Backends H S A) (op : Op) (s : State H S A) :
    (∃ added : List Event,
        (op.run B s).2.world.log = s.world.log ++ added ∧
        ∀ e ∈ added, ∃ m, e = Event.call s.self.port_type s.self.serialport m) ∧
    (∀ p, (s.self.port_type ≠ PortType.anyserial_hardware ∨ p ≠ s.self.serialport) →
        (op.run B s).2.world.hardware p = s.world.hardware p) ∧
    (∀ p, (s.self.port_type ≠ PortType.anyserial_soft ∨ p ≠ s.self.serialport) →
        (op.run B s).2.world.soft p = s.world.soft p) ∧
    (∀ p, (s.self.port_type ≠ PortType.anyserial_altsoft ∨ p ≠ s.self.serialport) →
        (op.run B s).2.world.altsoft p = s.world.altsoft p) := by
  obtain ⟨⟨port, kind⟩, w⟩ := s
  cases kind <;> cases op <;>
    simp [Op.run, AnySerial.begin, AnySerial.«end», AnySerial.peek, AnySerial.read, AnySerial.available,
      AnySerial.flushInput, AnySerial.flushOutput, AnySerial.listen, AnySerial.isListening,
      AnySerial.overflow, AnySerial.library_version, AnySerial.write, AnySerial.write_buf,
      AnySerial.writeByte, World.hardwareDo, World.softDo, World.altsoftDo,
      World.hardwareCall, World.softCall, World.altsoftCall] <;>
    intro p hp <;> exact Function.update_noteq hp _ _

/-- C9: `begin` checks nothing and cannot fail: for every backend kind and every
unsigned 32-bit `baud`, zero included, `begin(baud)` yields a state in which the
bound backend object is the result of the backend's own `begin` applied once to
that same `baud`, the call log has grown by exactly that one call, and nothing
else differs. -/
theorem begin_forwards_any_baud (B : Backends H S A) (port : Ptr) (w : World H S A)
    (baud : Nat) (_hbaud : baud < 2 ^ 32) :
    begin B baud ⟨ofHardwareSerial port, w⟩ =
      ⟨ofHardwareSerial port,
        { w with
          hardware := Function.update w.hardware port (B.hardware.begin baud (w.hardware port))
          log := w.log ++ [Event.call PortType.anyserial_hardware port (Method.begin baud)] }⟩ ∧
    begin B baud ⟨ofSoftwareSerial port, w⟩ =
      ⟨ofSoftwareSerial port,
        { w with
          soft := Function.update w.soft port (B.soft.begin baud (w.soft port))
          log := w.log ++ [Event.call PortType.anyserial_soft port (Method.begin baud)] }⟩ ∧
    begin B baud ⟨ofAltSoftSerial port, w⟩ =
      ⟨ofAltSoftSerial port,
        { w with
          altsoft := Function.update w.altsoft port (B.altsoft.begin baud (w.altsoft port))
          log := w.log ++ [Event.call PortType.anyserial_altsoft port (Method.begin baud)] }⟩ :=
  ⟨rfl, rfl, rfl⟩

/-- Witness for C9 at baud rate zero on fresh fake backends: the call is logged
with baud `0` and the fake is opened at baud `0`. -/
theorem begin_forwards_any_baud_witness :
    (0 : Nat) < 2 ^ 32 ∧
    (begin Fake.backends 0 ⟨ofHardwareSerial 3, Fake.world⟩).world.log =
      [Event.call PortType.anyserial_hardware 3 (Method.begin 0)] ∧
    (begin Fake.backends 0 ⟨ofHardwareSerial 3, Fake.world⟩).world.hardware 3 =
      { Fake.fresh with opened := true, baud := 0 } :=
  ⟨by norm_num,
    by rw [(begin_forwards_any_baud Fake.backends 3 Fake.world 0 (by norm_num)).1]; rfl,
    by rw [(begin_forwards_any_baud Fake.backends 3 Fake.world 0 (by norm_num)).1]; rfl⟩

/-- C5: for every backend kind, the destructor leaves a state in which the bound
backend object is the result of the backend's own `end` applied once, the call
log has grown by exactly that one `end` call on the bound object, and nothing
else differs: every other backend object is as it was, the bound object is still
there, and no destruction of a backend object has been logged. -/
theorem destructor_ends_bound_backend (B : Backends H S A) (port : Ptr) (w : World H S A) :
    destroy B ⟨ofHardwareSerial port, w⟩ =
      ⟨ofHardwareSerial port,
        { w with
          hardware := Function.update w.hardware port (B.hardware.end (w.hardware port))
          log := w.log ++ [Event.call PortType.anyserial_hardware port Method.end] }⟩ ∧
    destroy B ⟨ofSoftwareSerial port, w⟩ =
      ⟨ofSoftwareSerial port,
        { w with
          soft := Function.update w.soft port (B.soft.end (w.soft port))
          log := w.log ++ [Event.call PortType.anyserial_soft port Method.end] }⟩ ∧
    destroy B ⟨ofAltSoftSerial port, w⟩ =
      ⟨ofAltSoftSerial port,
        { w with
          altsoft := Function.update w.altsoft port (B.altsoft.end (w.altsoft port))
          log := w.log ++ [Event.call PortType.anyserial_altsoft port Method.end] }⟩ ∧
    (∀ (kind other : PortType) (obj : Ptr),
      Event.delete other obj ∈ (destroy B ⟨construct kind port, w⟩).world.log ↔
        Event.delete other obj ∈ w.log) := by
  refine ⟨rfl, rfl, rfl, ?_⟩
  intro kind other obj
  cases kind <;>
    simp [destroy, AnySerial.«end», construct, ofHardwareSerial, ofSoftwareSerial, ofAltSoftSerial,
      World.hardwareDo, World.softDo, World.altsoftDo,
      World.hardwareCall, World.softCall, World.altsoftCall]

/-- C3, as the code has it: for every backend kind, every state and every byte,
`writeByte(b)` leaves exactly the state that `write(buff, 1)` with `buff = [b]`
leaves (the same call with the same arguments reaches the same backend object
and is logged), but `writeByte` returns nothing: the count that the backend
returns to it is dropped. -/
theorem writeByte_same_effect_no_count (B : Backends H S A) (byte : Nat) (s : State H S A) :
    ((Op.writeByte byte).run B s).2 = ((Op.write_buf [byte] 1).run B s).2 ∧
    ((Op.writeByte byte).run B s).1 = Value.void := by
  obtain ⟨⟨port, kind⟩, w⟩ := s
  cases kind <;> exact ⟨rfl, rfl⟩

/-- C3 as stated fails: on a fresh fake hardware backend `write([65], 1)`
returns the count `1` while `writeByte(65)` returns nothing, so the two calls
are not observably equal. -/
theorem writeByte_count_differs :
    ((Op.writeByte 65).run Fake.backends ⟨ofHardwareSerial 0, Fake.world⟩).1 = Value.void ∧
    ((Op.write_buf [65] 1).run Fake.backends ⟨ofHardwareSerial 0, Fake.world⟩).1 =
      Value.size 1 ∧
    (Op.writeByte 65).run Fake.backends ⟨ofHardwareSerial 0, Fake.world⟩ ≠
      (Op.write_buf [65] 1).run Fake.backends ⟨ofHardwareSerial 0, Fake.world⟩ := by
  refine ⟨rfl, rfl, ?_⟩
  intro h
  have h1 := congrArg Prod.fst h
  exact absurd h1 (by decide)


/-- C6: on an adapter constructed over a fresh fake hardware backend,
`begin(9600)` followed by `write("hi")` reports 2 bytes written, leaves the
fake's record of written bytes equal to "hi" and its recorded baud rate equal
to 9600.  More generally, on fakes of every kind and for every baud rate and
every text, `begin(baud)` then `write(str)` returns the length of the text up
to its terminating zero and records that text and `baud`; and for arbitrary
backends of every kind the pair of calls returns the count that the backend's
own `write(str)` returns after the backend's own `begin(baud)`, leaves the
bound object in the state those two backend calls produce, and logs exactly
those two calls. -/
theorem begin_then_write (B : Backends H S A) (port : Ptr) (w : World H S A)
    (kind : PortType) (baud : Nat) (str : List Nat) :
    ((write Fake.backends [104, 105, 0]
        (begin Fake.backends 9600 ⟨ofHardwareSerial port, Fake.world⟩)).1 = 2 ∧
      ((write Fake.backends [104, 105, 0]
        (begin Fake.backends 9600 ⟨ofHardwareSerial port, Fake.world⟩)).2.world.hardware
          port).written = [104, 105] ∧
      ((write Fake.backends [104, 105, 0]
        (begin Fake.backends 9600 ⟨ofHardwareSerial port, Fake.world⟩)).2.world.hardware
          port).baud = 9600) ∧
    ((write Fake.backends str (begin Fake.backends baud ⟨construct kind port, Fake.world⟩)).1 =
        (str.takeWhile (fun c => c != 0)).length ∧
      (match kind with
        | PortType.anyserial_hardware =>
          (write Fake.backends str
            (begin Fake.backends baud ⟨construct kind port, Fake.world⟩)).2.world.hardware port
        | PortType.anyserial_soft =>
          (write Fake.backends str
            (begin Fake.backends baud ⟨construct kind port, Fake.world⟩)).2.world.soft port
        | PortType.anyserial_altsoft =>
          (write Fake.backends str
            (begin Fake.backends baud ⟨construct kind port, Fake.world⟩)).2.world.altsoft port) =
        { Fake.fresh with
          opened := true, baud := baud, written := str.takeWhile (fun c => c != 0) }) ∧
    (write B str (begin B baud ⟨ofHardwareSerial port, w⟩) =
        ((B.hardware.write str (B.hardware.begin baud (w.hardware port))).1,
          ⟨ofHardwareSerial port,
            { w with
              hardware := Function.update w.hardware port
                (B.hardware.write str (B.hardware.begin baud (w.hardware port))).2
              log := w.log ++ [Event.call PortType.anyserial_hardware port (Method.begin baud),
                Event.call PortType.anyserial_hardware port (Method.write str)] }⟩) ∧
      write B str (begin B baud ⟨ofSoftwareSerial port, w⟩) =
        ((B.soft.write str (B.soft.begin baud (w.soft port))).1,
          ⟨ofSoftwareSerial port,
            { w with
              soft := Function.update w.soft port
                (B.soft.write str (B.soft.begin baud (w.soft port))).2
              log := w.log ++ [Event.call PortType.anyserial_soft port (Method.begin baud),
                Event.call PortType.anyserial_soft port (Method.write str)] }⟩) ∧
      write B str (begin B baud ⟨ofAltSoftSerial port, w⟩) =
        ((B.altsoft.write str (B.altsoft.begin baud (w.altsoft port))).1,
          ⟨ofAltSoftSerial port,
            { w with
              altsoft := Function.update w.altsoft port
                (B.altsoft.write str (B.altsoft.begin baud (w.altsoft port))).2
              log := w.log ++ [Event.call PortType.anyserial_altsoft port (Method.begin baud),
                Event.call PortType.anyserial_altsoft port (Method.write str)] }⟩)) := by
  refine ⟨?_, ?_, ?_⟩
  · simp [AnySerial.write, AnySerial.begin, ofHardwareSerial, World.hardwareDo,
      World.hardwareCall, Fake.backends, Fake.hardwareSerial, Fake.world, Fake.fresh]
  · cases kind <;>
      simp [AnySerial.write, AnySerial.begin, construct, ofHardwareSerial, ofSoftwareSerial,
        ofAltSoftSerial, World.hardwareDo, World.softDo, World.altsoftDo,
        World.hardwareCall, World.softCall, World.altsoftCall,
        Fake.backends, Fake.hardwareSerial, Fake.softwareSerial, Fake.altSoftSerial,
        Fake.world, Fake.fresh]
  · simp [AnySerial.write, AnySerial.begin, ofHardwareSerial, ofSoftwareSerial,
      ofAltSoftSerial, World.hardwareDo, World.softDo, World.altsoftDo,
      World.hardwareCall, World.softCall, World.altsoftCall]

/-- C7: for every backend kind, every value-returning operation that the bound
backend class has returns exactly the value that the same-named member of the
bound backend object returns for the same arguments in its current state:
`peek`, `read`, `available` and both `write` overloads on all three kinds,
`listen`, `isListening`, `overflow` and `library_version` on the soft and
altsoft kinds.  On the hardware kind the latter four return the local defaults
`true`, `false`, `false` and `0`. -/
theorem returns_backend_value (B : Backends H S A) (port : Ptr) (w : World H S A)
    (str buff : List Nat) (len : Nat) :
    ((peek B ⟨ofHardwareSerial port, w⟩).1 = (B.hardware.peek (w.hardware port)).1 ∧
      (read B ⟨ofHardwareSerial port, w⟩).1 = (B.hardware.read (w.hardware port)).1 ∧
      (available B ⟨ofHardwareSerial port, w⟩).1 = (B.hardware.available (w.hardware port)).1 ∧
      (write B str ⟨ofHardwareSerial port, w⟩).1 = (B.hardware.write str (w.hardware port)).1 ∧
      (write_buf B buff len ⟨ofHardwareSerial port, w⟩).1 =
        (B.hardware.write_buf buff len (w.hardware port)).1 ∧
      (listen B ⟨ofHardwareSerial port, w⟩).1 = true ∧
      (isListening B ⟨ofHardwareSerial port, w⟩).1 = false ∧
      (overflow B ⟨ofHardwareSerial port, w⟩).1 = false ∧
      (library_version B ⟨ofHardwareSerial port, w⟩).1 = 0) ∧
    ((peek B ⟨ofSoftwareSerial port, w⟩).1 = (B.soft.peek (w.soft port)).1 ∧
      (read B ⟨ofSoftwareSerial port, w⟩).1 = (B.soft.read (w.soft port)).1 ∧
      (available B ⟨ofSoftwareSerial port, w⟩).1 = (B.soft.available (w.soft port)).1 ∧
      (write B str ⟨ofSoftwareSerial port, w⟩).1 = (B.soft.write str (w.soft port)).1 ∧
      (write_buf B buff len ⟨ofSoftwareSerial port, w⟩).1 =
        (B.soft.write_buf buff len (w.soft port)).1 ∧
      (listen B ⟨ofSoftwareSerial port, w⟩).1 = (B.soft.listen (w.soft port)).1 ∧
      (isListening B ⟨ofSoftwareSerial port, w⟩).1 = (B.soft.isListening (w.soft port)).1 ∧
      (overflow B ⟨ofSoftwareSerial port, w⟩).1 = (B.soft.overflow (w.soft port)).1 ∧
      (library_version B ⟨ofSoftwareSerial port, w⟩).1 =
        (B.soft.library_version (w.soft port)).1) ∧
    ((peek B ⟨ofAltSoftSerial port, w⟩).1 = (B.altsoft.peek (w.altsoft port)).1 ∧
      (read B ⟨ofAltSoftSerial port, w⟩).1 = (B.altsoft.read (w.altsoft port)).1 ∧
      (available B ⟨ofAltSoftSerial port, w⟩).1 = (B.altsoft.available (w.altsoft port)).1 ∧
      (write B str ⟨ofAltSoftSerial port, w⟩).1 = (B.altsoft.write str (w.altsoft port)).1 ∧
      (write_buf B buff len ⟨ofAltSoftSerial port, w⟩).1 =
        (B.altsoft.write_buf buff len (w.altsoft port)).1 ∧
      (listen B ⟨ofAltSoftSerial port, w⟩).1 = (B.altsoft.listen (w.altsoft port)).1 ∧
      (isListening B ⟨ofAltSoftSerial port, w⟩).1 =
        (B.altsoft.isListening (w.altsoft port)).1 ∧
      (overflow B ⟨ofAltSoftSerial port, w⟩).1 = (B.altsoft.overflow (w.altsoft port)).1 ∧
      (library_version B ⟨ofAltSoftSerial port, w⟩).1 =
        (B.altsoft.library_version (w.altsoft port)).1) :=
  ⟨⟨rfl, rfl, rfl, rfl, rfl, rfl, rfl, rfl, rfl⟩,
    ⟨rfl, rfl, rfl, rfl, rfl, rfl, rfl, rfl, rfl⟩,
    ⟨rfl, rfl, rfl, rfl, rfl, rfl, rfl, rfl, rfl⟩⟩


/-- C4: for backends of every kind that keep the receive-side contract
`Receives` (whatever their state type and their queue of pending bytes), and
for every state: if the bound backend reports zero available bytes then `read`
and `peek` both return `-1`; and a `read` issued right after a `peek` returns
the value the `peek` returned. -/
theorem read_peek_contract (B : Backends H S A)
    (pendingH : H → List Nat) (pendingS : S → List Nat) (pendingA : A → List Nat)
    (hH : Receives B.hardware pendingH)
    (hS : Receives B.soft.toHardwareSerial pendingS)
    (hA : Receives B.altsoft.toHardwareSerial pendingA)
    (s : State H S A) :
    ((available B s).1 = 0 → (read B s).1 = -1 ∧ (peek B s).1 = -1) ∧
    (read B (peek B s).2).1 = (peek B s).1 := by
  obtain ⟨⟨port, kind⟩, w⟩ := s
  cases kind
  · refine ⟨?_, ?_⟩
    · intro h0
      have hlen : (pendingH (w.hardware port)).length = 0 := by
        have := hH.available_count (w.hardware port)
        have h1 : (B.hardware.available (w.hardware port)).1 = 0 := h0
        omega
      have hnil := List.length_eq_zero.mp hlen
      refine ⟨?_, ?_⟩
      · show (B.hardware.read (w.hardware port)).1 = -1
        rw [hH.read_next, hnil]
      · show (B.hardware.peek (w.hardware port)).1 = -1
        rw [hH.peek_next, hnil]
    · show (B.hardware.read (Function.update w.hardware port
        (B.hardware.peek (w.hardware port)).2 port)).1 = (B.hardware.peek (w.hardware port)).1
      rw [Function.update_same, hH.read_next, hH.peek_keeps, hH.peek_next]
  · refine ⟨?_, ?_⟩
    · intro h0
      have hlen : (pendingA (w.altsoft port)).length = 0 := by
        have := hA.available_count (w.altsoft port)
        have h1 : (B.altsoft.available (w.altsoft port)).1 = 0 := h0
        omega
      have hnil := List.length_eq_zero.mp hlen
      refine ⟨?_, ?_⟩
      · show (B.altsoft.read (w.altsoft port)).1 = -1
        rw [hA.read_next, hnil]
      · show (B.altsoft.peek (w.altsoft port)).1 = -1
        rw [hA.peek_next, hnil]
    · show (B.altsoft.read (Function.update w.altsoft port
        (B.altsoft.peek (w.altsoft port)).2 port)).1 = (B.altsoft.peek (w.altsoft port)).1
      rw [Function.update_same, hA.read_next, hA.peek_keeps, hA.peek_next]
  · refine ⟨?_, ?_⟩
    · intro h0
      have hlen : (pendingS (w.soft port)).length = 0 := by
        have := hS.available_count (w.soft port)
        have h1 : (B.soft.available (w.soft port)).1 = 0 := h0
        omega
      have hnil := List.length_eq_zero.mp hlen
      refine ⟨?_, ?_⟩
      · show (B.soft.read (w.soft port)).1 = -1
        rw [hS.read_next, hnil]
      · show (B.soft.peek (w.soft port)).1 = -1
        rw [hS.peek_next, hnil]
    · show (B.soft.read (Function.update w.soft port
        (B.soft.peek (w.soft port)).2 port)).1 = (B.soft.peek (w.soft port)).1
      rw [Function.update_same, hS.read_next, hS.peek_keeps, hS.peek_next]

/-- The fake backend keeps the receive-side contract, its queue of pending
bytes being `received`. -/
theorem Fake.receives : Receives Fake.hardwareSerial Fake.received := by
  constructor
  · intro x; rfl
  · intro x
    cases h : x.received <;> simp [Fake.hardwareSerial, h]
  · intro x
    cases h : x.received <;> simp [Fake.hardwareSerial, h]
  · intro x
    cases h : x.received <;> simp [Fake.hardwareSerial, h]

/-- Witness for C4 on fake backends, in a world whose soft backend object at
address 1 holds the pending bytes 7 and 8: the contract holds of the fakes, and
on the adapter bound to that object `peek` returns 7 and the `read` after it
returns 7 too. -/
theorem read_peek_contract_witness :
    Receives Fake.backends.hardware Fake.received ∧
    Receives Fake.backends.soft.toHardwareSerial Fake.received ∧
    Receives Fake.backends.altsoft.toHardwareSerial Fake.received ∧
    (peek Fake.backends ⟨ofSoftwareSerial 1,
      { Fake.world with soft := fun _ => { Fake.fresh with received := [7, 8] } }⟩).1 = 7 ∧
    (read Fake.backends (peek Fake.backends ⟨ofSoftwareSerial 1,
      { Fake.world with soft := fun _ => { Fake.fresh with received := [7, 8] } }⟩).2).1 = 7 ∧
    (available Fake.backends ⟨ofHardwareSerial 1, Fake.world⟩).1 = 0 ∧
    (read Fake.backends ⟨ofHardwareSerial 1, Fake.world⟩).1 = -1 ∧
    (peek Fake.backends ⟨ofHardwareSerial 1, Fake.world⟩).1 = -1 :=
  ⟨Fake.receives, Fake.receives, Fake.receives, rfl,
    ((read_peek_contract Fake.backends Fake.received Fake.received Fake.received
      Fake.receives Fake.receives Fake.receives ⟨ofSoftwareSerial 1,
        { Fake.world with soft := fun _ => { Fake.fresh with received := [7, 8] } }⟩).2).trans rfl,
    rfl,
    (read_peek_contract Fake.backends Fake.received Fake.received Fake.received
      Fake.receives Fake.receives Fake.receives ⟨ofHardwareSerial 1, Fake.world⟩).1 rfl⟩


end AnySerial
